import Mathlib

/-!
# Verification of the dotbot-windows plugin (`dotbot_windows.py`)

This file gives a shallow embedding of the reconciliation engine of the
dotbot-windows plugin: schema validation (`validate_data`), the registry
accessor (`get_registry_value` / `set_registry_value`), the background-color
setter (`set_background_color`), the registry importer
(`handle_registry_imports` / `import_registry_file`), the font synchronizer
(`handle_fonts`) and the orchestrator (`handle` / `can_handle`).

Conventions of the embedding:
* Python values occurring in config data are modelled by the inductive
  `PyVal`; Python exceptions by `PyExc` (`ValueError`, `OSError`,
  `AttributeError`, `TypeError`); a function that can raise returns
  `Except PyExc _`.
* The live Windows registry is modelled as an association list `RegState`
  keyed by (hive, key path, value name); `winreg.SetValueEx` failures are
  injected through an oracle `writeOk` (a write raises `OSError` exactly
  when the oracle is false at that location, matching the `winreg`
  contract that registry errors are `OSError`s).
* OS side effects (registry writes, file copies, `SetSysColors`, subprocess
  invocations, log lines that the code emits) are collected in an explicit
  trace `List Effect`.
* `int(s, base)` is modelled by `pyIntParse`, faithful to CPython on ASCII
  input (surrounding whitespace, an optional sign, underscore digit
  separators, and a `0x`/`0X` prefix for base 16); the configuration
  strings considered in this development are ASCII.
* Debug-level log lines, which carry no information used by any branch,
  are not traced.
-/

namespace DotbotWindows

/-- Python values as they occur in the plugin's config data: strings,
integers, booleans, `None`, and string-keyed mappings. -/
inductive PyVal where
  | str (s : String)
  | int (n : Int)
  | bool (b : Bool)
  | pyNone
  | dict (entries : List (String × PyVal))

/-- Primitive Python type tags usable in a validation schema (the plugin's
`VALID_TYPES` only uses `str`, but `validate_data` is generic). -/
inductive PyType where
  | str
  | int
  | bool
  | dict
deriving DecidableEq

/-- A validation schema node: either a primitive type tag or a nested
mapping of sub-schemas, mirroring the shape of `VALID_TYPES`. -/
inductive Schema where
  | prim (t : PyType)
  | nested (entries : List (String × Schema))

/-- Python `isinstance` on the modelled values and type tags.  Note that in
Python `bool` is a subclass of `int`, so `isinstance(True, int)` holds. -/
def isinst : PyVal → PyType → Bool
  | .str _, .str => true
  | .int _, .int => true
  | .bool _, .int => true
  | .bool _, .bool => true
  | .dict _, .dict => true
  | _, _ => false

/-- First-match lookup in a string-keyed association list, modelling Python
`dict` indexing (real dicts have unique keys, so first-match is exact). -/
def dictGet : List (String × PyVal) → String → Option PyVal
  | [], _ => none
  | (k, v) :: rest, key => if k = key then some v else dictGet rest key

/-- The keys of an association list. -/
def keysOf (entries : List (String × PyVal)) : List String :=
  entries.map Prod.fst

/-- Validation errors raised by `validate_data` (each corresponds to one of
the `ValueError` messages in the source). -/
inductive VErr where
  | notDict (key : String)
  | unexpectedKeys (key : String)
  | wrongType (key : String)
deriving DecidableEq

mutual

/-- Embedding of `Windows.validate_data(key, data, expected)`:
`data` must be a dict, must contain no key absent from `expected`, and each
key present in both is checked against the schema (primitive tag via
`isinstance`, nested schema via recursion).  Missing keys are skipped. -/
def validate_data (key : String) (data : PyVal)
    (expected : List (String × Schema)) : Except VErr Unit :=
  match data with
  | .dict entries =>
      if entries.any (fun kv => !((expected.map Prod.fst).contains kv.1)) then
        .error (.unexpectedKeys key)
      else
        validateEntries key entries expected
  | _ => .error (.notDict key)
termination_by (sizeOf expected, 1)

/-- The `for sub_key, value in expected.items()` loop of `validate_data`:
raising (returning `.error`) aborts the remaining iterations, as in the
source. -/
def validateEntries (key : String) (entries : List (String × PyVal)) :
    List (String × Schema) → Except VErr Unit
  | [] => .ok ()
  | (subKey, sch) :: rest =>
      match dictGet entries subKey with
      | none => validateEntries key entries rest
      | some v =>
          match sch with
          | .prim t =>
              if isinst v t then validateEntries key entries rest
              else .error (.wrongType (key ++ "." ++ subKey))
          | .nested exp2 =>
              match validate_data (key ++ "." ++ subKey) v exp2 with
              | .ok () => validateEntries key entries rest
              | .error e => .error e
termination_by l => (sizeOf l, 0)

end

/-- Embedding of the module-level `VALID_TYPES` schema. -/
def VALID_TYPES : List (String × Schema) :=
  [ ("registry", .nested [("import", .prim .str)])
  , ("personalization", .nested [("background-color", .prim .str)])
  , ("fonts", .nested [("path", .prim .str)]) ]

/-! ## Python exceptions, `int(·, base)` and `str.split()` -/

/-- The Python exception classes this plugin can raise or propagate. -/
inductive PyExc where
  | valueError (msg : String)
  | osError (msg : String)
  | attributeError (msg : String)
  | typeError (msg : String)
deriving DecidableEq

/-- Holds exactly on the Python `ValueError` class. -/
def PyExc.isValueError : PyExc → Bool
  | .valueError _ => true
  | _ => false

/-- ASCII whitespace stripped/split by Python (`str.strip` / `str.split`). -/
def isPySpace (c : Char) : Bool :=
  c = ' ' || c = '\t' || c = '\n' || c = '\r' || c = '\x0b' || c = '\x0c'

/-- Hexadecimal digit value of a character, if any. -/
def hexVal (c : Char) : Option Nat :=
  if '0' ≤ c ∧ c ≤ '9' then some (c.toNat - '0'.toNat)
  else if 'a' ≤ c ∧ c ≤ 'f' then some (c.toNat - 'a'.toNat + 10)
  else if 'A' ≤ c ∧ c ≤ 'F' then some (c.toNat - 'A'.toNat + 10)
  else none

/-- Digit value of a character in a given base (2 ≤ base ≤ 16 here). -/
def digitVal (base : Nat) (c : Char) : Option Nat :=
  match hexVal c with
  | some v => if v < base then some v else none
  | none => none

/-- Digit run after the first digit: CPython permits a single underscore
between two digits (`1_0`), never doubled, leading or trailing. -/
def parseDigitsAux (base : Nat) (acc : Nat) : List Char → Option Nat
  | [] => some acc
  | '_' :: c :: rest =>
      match digitVal base c with
      | some v => parseDigitsAux base (acc * base + v) rest
      | none => none
  | ['_'] => none
  | c :: rest =>
      match digitVal base c with
      | some v => parseDigitsAux base (acc * base + v) rest
      | none => none

/-- A nonempty digit run (first char must be a digit). -/
def parseDigitSeq (base : Nat) : List Char → Option Nat
  | [] => none
  | c :: rest =>
      match digitVal base c with
      | some v => parseDigitsAux base v rest
      | none => none

/-- Digit body after the optional sign: for base 16 CPython also accepts a
`0x`/`0X` prefix, optionally followed by one underscore. -/
def parseIntBody (base : Nat) (cs : List Char) : Option Nat :=
  if base = 16 then
    match cs with
    | '0' :: x :: rest =>
        if x = 'x' ∨ x = 'X' then
          match rest with
          | '_' :: rest2 => parseDigitSeq 16 rest2
          | _ => parseDigitSeq 16 rest
        else parseDigitSeq 16 cs
    | _ => parseDigitSeq 16 cs
  else parseDigitSeq base cs

/-- Embedding of CPython `int(s, base)` on ASCII input: strip surrounding
whitespace, accept one optional sign, then a digit body.  `none` models the
`ValueError` that `int` raises on malformed input. -/
def pyIntParse (base : Nat) (cs : List Char) : Option Int :=
  let core := ((cs.dropWhile isPySpace).reverse.dropWhile isPySpace).reverse
  match core with
  | '+' :: rest => (parseIntBody base rest).map Int.ofNat
  | '-' :: rest => (parseIntBody base rest).map (fun n => -(n : Int))
  | rest => (parseIntBody base rest).map Int.ofNat

/-- The `for`-accumulator of Python `str.split()` (no argument): split on
runs of whitespace, discarding empty tokens; `cur` holds the reversed
characters of the token being built. -/
def splitWsAux (cur : List Char) : List Char → List (List Char)
  | [] => if cur = [] then [] else [cur.reverse]
  | c :: rest =>
      if isPySpace c then
        if cur = [] then splitWsAux [] rest
        else cur.reverse :: splitWsAux [] rest
      else splitWsAux (c :: cur) rest

/-- Embedding of Python `s.split()` (whitespace split, empties dropped). -/
def pySplit (cs : List Char) : List (List Char) := splitWsAux [] cs

/-! ## Registry model and accessor -/

/-- Value of `winreg.HKEY_CURRENT_USER`. -/
def HKEY_CURRENT_USER : Nat := 2147483649

/-- Value of `winreg.REG_SZ`. -/
def REG_SZ : Nat := 1

/-- The live registry, as an association list from (hive, key path,
value name) to (value, data type).  The newest entry for a location is the
first match. -/
abbrev RegState := List ((Nat × String × String) × (String × Nat))

/-- Current (value, data type) stored at a registry location, if any. -/
def regLookup : RegState → Nat → String → String → Option (String × Nat)
  | [], _, _, _ => none
  | (loc, v) :: rest, hive, key, sub =>
      if loc = (hive, key, sub) then some v else regLookup rest hive key sub

/-- Store a value at a registry location (shadowing any previous entry). -/
def regStore (st : RegState) (hive : Nat) (key sub : String)
    (value : String) (dataType : Nat) : RegState :=
  ((hive, key, sub), (value, dataType)) :: st

/-- OS side effects and log lines emitted by the plugin, in order. -/
inductive Effect where
  | regWrite (hive : Nat) (key sub : String) (dataType : Nat) (value : String)
  | sysColors (red green blue : Int)
  | copyFile (name : String)
  | mkdirDst
  | runRegImport (path : String)
  | logError (msg : String)
  | logWarning (msg : String)
  | lowinfo (msg : String)
  | info (msg : String)
deriving DecidableEq

/-- Embedding of `Windows.get_registry_value`: returns the stored
(value, data type), or `(None, None)` — here `none` — when the value is
absent (the source maps every `OSError` from `winreg` to this same absent
result). -/
def get_registry_value (st : RegState) (hive : Nat) (key sub : String) :
    Option (String × Nat) :=
  regLookup st hive key sub

/-- Embedding of `Windows.set_registry_value`: opens the key for write
access and writes.  `writeOk` is the oracle for whether the `winreg` calls
succeed at a location; on failure the `OSError` raised by `winreg`
propagates (the source has no handler here). -/
def set_registry_value (writeOk : Nat → String → String → Bool)
    (st : RegState) (hive : Nat) (key sub : String) (dataType : Nat)
    (value : String) : Except PyExc (RegState × List Effect) :=
  if writeOk hive key sub then
    .ok (regStore st hive key sub value dataType,
         [.regWrite hive key sub dataType value])
  else
    .error (.osError "winreg access denied")

/-! ## Background color setter -/

/-- The fixed registry key written by `set_background_color`. -/
def colorKey : String := "Control Panel\\Colors"

/-- The color-parsing phase of `Windows.set_background_color` (everything
before the range check): a `#` spec must have exactly 7 characters and its
three 2-character slices are parsed with `int(·, 16)`; otherwise the spec is
whitespace-split and the tokens parsed with `int(·)`, the unpacking into
three variables raising `ValueError` unless there are exactly three. -/
def parse_color (color : String) : Except PyExc (Int × Int × Int) :=
  if color.data.head? = some '#' then
    if color.data.length ≠ 7 then
      .error (.valueError "did not parse as a hex RGB value")
    else
      match pyIntParse 16 ((color.data.drop 1).take 2),
            pyIntParse 16 ((color.data.drop 3).take 2),
            pyIntParse 16 ((color.data.drop 5).take 2) with
      | some red, some green, some blue => .ok (red, green, blue)
      | _, _, _ => .error (.valueError "did not parse as a hex RGB value")
  else
    match (pySplit color.data).mapM (pyIntParse 10) with
    | some [red, green, blue] => .ok (red, green, blue)
    | _ => .error (.valueError "did not parse as 3 decimal RGB values")

/-- The canonical decimal triplet `f-string` `"{red} {green} {blue}"`. -/
def colorTarget (red green blue : Int) : String :=
  toString red ++ " " ++ toString green ++ " " ++ toString blue

/-- The tail of `Windows.set_background_color` after parsing: range-check
the channels, then compare the current registry value and type at
(HKEY_CURRENT_USER, `Control Panel\Colors`, `Background`) against the
canonical decimal triplet; if equal, log and return `True` with no OS call,
otherwise write the registry value and issue the `SetSysColors` call. -/
def apply_background_color (writeOk : Nat → String → String → Bool)
    (st : RegState) (color : String) (red green blue : Int) :
    Except PyExc (Bool × RegState × List Effect) :=
  if !(decide (0 ≤ red ∧ red ≤ 255) && decide (0 ≤ green ∧ green ≤ 255)
       && decide (0 ≤ blue ∧ blue ≤ 255)) then
    .error (.valueError "The background colors must all be in the range [0, 255]")
  else
    if get_registry_value st HKEY_CURRENT_USER colorKey "Background"
        = some (colorTarget red green blue, REG_SZ) then
      .ok (true, st,
           [.lowinfo ("The background color is already set to " ++ color)])
    else
      match set_registry_value writeOk st HKEY_CURRENT_USER colorKey
          "Background" REG_SZ (colorTarget red green blue) with
      | .ok (st1, effs) =>
          .ok (true, st1,
               .info ("Setting the background color to " ++ color)
                 :: effs ++ [.sysColors red green blue])
      | .error e => .error e

/-- Embedding of `Windows.set_background_color`: parse the spec, then apply
it (`apply_background_color`).  A `ValueError` raised by either phase
propagates to the caller. -/
def set_background_color (writeOk : Nat → String → String → Bool)
    (st : RegState) (color : String) :
    Except PyExc (Bool × RegState × List Effect) :=
  match parse_color color with
  | .error e => .error e
  | .ok (red, green, blue) =>
      apply_background_color writeOk st color red green blue

/-! ## OS environment for one run -/

/-- The OS-facing facts consulted by one `handle` invocation: platform
gates, the outcome oracles for registry writes (`writeOk`), font file
copies (`copyOk`) and `reg.exe import` subprocesses (`exitCode`), the
Windows version reported by `platform.win32_ver()`, the filesystem state of
the source/destination font directories, the font filenames found by
`_get_font_files` under each, the resolved destination font directory path,
and the `.reg` files found by `rglob` (as absolute paths) under the
configured import directory. -/
structure Env where
  isWin32 : Bool
  winregAvailable : Bool
  regExeIsFile : Bool
  writeOk : Nat → String → String → Bool
  fontsVersion : Int
  fontsBuild : Int
  srcIsDir : Bool
  dstIsFile : Bool
  dstExists : Bool
  srcFontNames : List String
  dstFontNames : List String
  copyOk : String → Bool
  dstPath : String
  regFiles : List String
  exitCode : String → Nat

/-- Embedding of `data.get(k1, {}).get(k2, None)`: absent outer or inner
keys yield `None`; a non-dict at `k1` (or a non-dict `data`) raises
`AttributeError` when `.get` is called on it. -/
def pyGet2 (data : PyVal) (k1 k2 : String) : Except PyExc (Option PyVal) :=
  match data with
  | .dict entries =>
      match dictGet entries k1 with
      | none => .ok none
      | some (.dict inner) => .ok (dictGet inner k2)
      | some _ => .error (.attributeError "object has no attribute get")
  | _ => .error (.attributeError "object has no attribute get")

/-! ## Personalization handler -/

/-- Embedding of `Windows.handle_personalization`: look up
`personalization.background-color`; if present, call
`set_background_color`, folding its boolean into `success` and catching
only `ValueError` (which sets `success = False`). -/
def handle_personalization (env : Env) (st : RegState) (data : PyVal) :
    Except PyExc (Bool × RegState × List Effect) :=
  match pyGet2 data "personalization" "background-color" with
  | .error e => .error e
  | .ok none => .ok (true, st, [])
  | .ok (some (.str color)) =>
      match set_background_color env.writeOk st color with
      | .ok (b, st1, effs) => .ok (b, st1, effs)
      | .error (.valueError _) => .ok (false, st, [])
      | .error e => .error e
  | .ok (some _) => .error (.attributeError "object has no attribute startswith")

/-! ## Font synchronizer -/

/-- The registry key under which installed fonts are recorded. -/
def fontsRegKey : String := "SOFTWARE\\Microsoft\\Windows NT\\CurrentVersion\\Fonts"

/-- The per-font registry value name, suffixed to disambiguate from other
tools. -/
def fontValueName (name : String) : String := name ++ " (dotbot-windows)"

/-- The `shutil.copyfile` loop of `handle_fonts` over the sorted
source-minus-destination names: returns (no copy failed, names whose copy
succeeded in order, emitted effects).  A failed copy logs an error and
clears the success flag but does not stop the loop. -/
def copyLoop (copyOk : String → Bool) : List String → Bool × List String × List Effect
  | [] => (true, [], [])
  | n :: rest =>
      let (s, copied, effs) := copyLoop copyOk rest
      if copyOk n then
        (s, n :: copied, .copyFile n :: effs)
      else
        (false, copied,
         .logError ("Unable to copy " ++ n ++ " to Windows font directory") :: effs)

/-- The registry-recording loop of `handle_fonts` over the copied fonts.
Each font's installed path is written with `set_registry_value`; the
source's handler catches only `ValueError` (logging and clearing the
success flag), so the `OSError` that `set_registry_value` actually raises
on failure propagates out. -/
def registerLoop (env : Env) (st : RegState) :
    List String → Except PyExc (Bool × RegState × List Effect)
  | [] => .ok (true, st, [])
  | n :: rest =>
      match set_registry_value env.writeOk st HKEY_CURRENT_USER fontsRegKey
          (fontValueName n) REG_SZ (env.dstPath ++ "/" ++ n) with
      | .ok (st1, effs) =>
          match registerLoop env st1 rest with
          | .ok (s, st2, effs2) =>
              .ok (s, st2, effs ++ [.info ("Installed font " ++ n)] ++ effs2)
          | .error e => .error e
      | .error (.valueError _) =>
          match registerLoop env st rest with
          | .ok (_, st2, effs2) =>
              .ok (false, st2,
                   .logError ("Unable to install " ++ n ++ " to Windows registry")
                     :: effs2)
          | .error e => .error e
      | .error e => .error e

/-- Lexicographic (code-point) comparison of character lists, the order
Python uses to compare strings. -/
def charListLe : List Char → List Char → Bool
  | [], _ => true
  | _ :: _, [] => false
  | a :: as, b :: bs => if a < b then true else if b < a then false else charListLe as bs

/-- Python string comparison `a <= b`. -/
def strLe (a b : String) : Bool := charListLe a.data b.data

/-- Insert into a sorted list, preserving order. -/
def insertSorted (a : String) : List String → List String
  | [] => [a]
  | b :: rest => if strLe a b then a :: b :: rest else b :: insertSorted a rest

/-- Python `sorted` on strings (lexicographic by code point; the inputs
sorted here are duplicate-free, so any correct sort yields the same
list). -/
def sortStrings : List String → List String
  | [] => []
  | a :: rest => insertSorted a (sortStrings rest)

/-- Model of `set(src_fonts)`: the distinct source font filenames. -/
def srcSet (env : Env) : List String := env.srcFontNames.dedup

/-- Model of `set(dst_fonts)`: the distinct destination font filenames. -/
def dstSet (env : Env) : List String := env.dstFontNames.dedup

/-- Model of the sorted intersection of source and destination names:
fonts already installed. -/
def alreadyNames (env : Env) : List String :=
  sortStrings ((srcSet env).filter (fun n => (dstSet env).contains n))

/-- Model of the sorted source-minus-destination names: fonts to copy. -/
def toCopyNames (env : Env) : List String :=
  sortStrings ((srcSet env).filter (fun n => !(dstSet env).contains n))

/-- Embedding of `Windows.handle_fonts`: no-op without `fonts.path`; gate on
Windows 10 build 17704; check the source is a directory and the destination
is not a file (creating it if absent); classify source font names against
destination font names (both deduplicated as Python dict keys and handled
in sorted order): the intersection is logged as already installed, the
difference is copied, and each successfully copied font is recorded in the
registry. -/
def handle_fonts (env : Env) (st : RegState) (data : PyVal) :
    Except PyExc (Bool × RegState × List Effect) :=
  match pyGet2 data "fonts" "path" with
  | .error e => .error e
  | .ok none => .ok (true, st, [])
  | .ok (some (.str _fontPath)) =>
      if !(decide (env.fontsVersion > 10)
           || (decide (env.fontsVersion = 10) && decide (env.fontsBuild ≥ 17704))) then
        .ok (false, st,
             [.logError "Fonts can only be configured on Windows 10 build 17704 and higher"])
      else if !env.srcIsDir then
        .ok (false, st, [.logError "The font source is not a directory that exists"])
      else if env.dstIsFile then
        .ok (false, st, [.logError "The user font directory is a file"])
      else
        match registerLoop env st (copyLoop env.copyOk (toCopyNames env)).2.1 with
        | .error e => .error e
        | .ok (regSucc, st1, regEffs) =>
            .ok ((copyLoop env.copyOk (toCopyNames env)).1 && regSucc, st1,
                 (if env.dstExists then [] else [.mkdirDst])
                   ++ (alreadyNames env).map
                        (fun n => Effect.lowinfo
                          ("Font " ++ n ++ " is already installed"))
                   ++ (copyLoop env.copyOk (toCopyNames env)).2.2 ++ regEffs)
  | .ok (some _) => .error (.typeError "expandvars expects a string")

/-! ## Registry importer -/

/-- Embedding of `Windows.import_registry_file`: run
`reg.exe import <path>`; exit code zero is success, anything else logs an
actionable error and fails this file. -/
def import_registry_file (env : Env) (path : String) : Bool × List Effect :=
  if env.exitCode path ≠ 0 then
    (false,
     [.runRegImport path,
      .logError ("Unable to import " ++ path
        ++ " into the registry. (Are admin permissions required?)")])
  else
    (true,
     [.runRegImport path, .info ("Imported " ++ path ++ " into the registry")])

/-- The `for path in rglob` loop of `handle_registry_imports`: `success &=`
folds every per-file result in without short-circuiting. -/
def importLoop (env : Env) : List String → Bool × List Effect
  | [] => (true, [])
  | p :: rest =>
      let (b, effs) := import_registry_file env p
      let (bs, effss) := importLoop env rest
      (b && bs, effs ++ effss)

/-- Embedding of `Windows.handle_registry_imports`: no-op without
`registry.import`; otherwise import every discovered `.reg` file. -/
def handle_registry_imports (env : Env) (data : PyVal) :
    Except PyExc (Bool × List Effect) :=
  match pyGet2 data "registry" "import" with
  | .error e => .error e
  | .ok none => .ok (true, [])
  | .ok (some (.str _dir)) => .ok (importLoop env env.regFiles)
  | .ok (some _) => .error (.typeError "argument should be a str or an os.PathLike object")

/-! ## Orchestrator -/

/-- Embedding of `Windows.can_handle`: only the `windows` directive. -/
def can_handle (directive : String) : Bool :=
  directive = "windows"

/-- Embedding of `Windows.handle`: raise `ValueError` unless `can_handle`;
return `False` on a non-win32 platform, a missing `reg.exe`, or a schema
validation failure; otherwise run the three task handlers unconditionally
in order and AND their results (`success &= ...`). -/
def handle (env : Env) (st : RegState) (directive : String) (data : PyVal) :
    Except PyExc (Bool × RegState × List Effect) :=
  if !can_handle directive then
    .error (.valueError
      "The Windows plugin cannot run. Check the debug logs for more information.")
  else if !(env.isWin32 && env.winregAvailable) then
    .ok (false, st, [.logWarning "The Windows plugin cannot run on this platform."])
  else if !env.regExeIsFile then
    .ok (false, st, [.logError "The Windows plugin must be able to access reg.exe."])
  else
    match validate_data "windows" data VALID_TYPES with
    | .error _ => .ok (false, st, [.logError "invalid config"])
    | .ok () =>
        match handle_personalization env st data with
        | .error e => .error e
        | .ok (b1, st1, effs1) =>
            match handle_registry_imports env data with
            | .error e => .error e
            | .ok (b2, effs2) =>
                match handle_fonts env st1 data with
                | .error e => .error e
                | .ok (b3, st2, effs3) =>
                    .ok (b1 && b2 && b3, st2, effs1 ++ effs2 ++ effs3)

/-! ## Common concrete data for witnesses -/

/-- A concrete all-succeeding environment used to instantiate theorems. -/
def sampleEnv : Env where
  isWin32 := true
  winregAvailable := true
  regExeIsFile := true
  writeOk := fun _ _ _ => true
  fontsVersion := 10
  fontsBuild := 19045
  srcIsDir := true
  dstIsFile := false
  dstExists := true
  srcFontNames := ["A.ttf", "B.otf"]
  dstFontNames := ["B.otf"]
  copyOk := fun _ => true
  dstPath := "C:/Users/u/Fonts"
  regFiles := ["x.reg", "sub/y.reg"]
  exitCode := fun _ => 0

/-- A config block that only sets `fonts.path`. -/
def sampleFontsData : PyVal := .dict [("fonts", .dict [("path", .str "~/fonts")])]

/-- Holds exactly when the call raised a `ValueError` (and hence, in this
embedding, produced no effect trace at all). -/
def throwsValueError : Except PyExc (Bool × RegState × List Effect) → Bool
  | .error (.valueError _) => true
  | _ => false

/-- Holds iff `cs` is exactly two hexadecimal digit characters. -/
def twoHexDigits : List Char → Bool
  | [a, b] => (hexVal a).isSome && (hexVal b).isSome
  | _ => false

/-- The registry state after the font-registration loop has recorded each
name in turn (all writes succeeding). -/
def regStoreAll (env : Env) (st : RegState) : List String → RegState
  | [] => st
  | n :: rest =>
      regStoreAll env
        (regStore st HKEY_CURRENT_USER fontsRegKey (fontValueName n)
          (env.dstPath ++ "/" ++ n) REG_SZ) rest

/-- The effect trace of the font-registration loop when all writes
succeed: one registry write and one info line per name, in order. -/
def regEffsAll (env : Env) : List String → List Effect
  | [] => []
  | n :: rest =>
      .regWrite HKEY_CURRENT_USER fontsRegKey (fontValueName n) REG_SZ
          (env.dstPath ++ "/" ++ n)
        :: .info ("Installed font " ++ n) :: regEffsAll env rest

/-- A sample environment in which copying `A.ttf` fails while `B.otf`
succeeds, with an empty destination directory. -/
def failEnv : Env :=
  { sampleEnv with dstFontNames := [], copyOk := fun n => !(n == "A.ttf") }

/-- A sample environment in which every registry write fails, with an
empty destination directory. -/
def oserrEnv : Env :=
  { sampleEnv with dstFontNames := [], writeOk := fun _ _ _ => false }

/-! ## Theorems -/

deriving instance DecidableEq for Except

instance : DecidableEq (Bool × RegState × List Effect) :=
  @instDecidableEqProd _ _ inferInstance
    (@instDecidableEqProd _ _ inferInstance inferInstance)

/-- A parse failure propagates out of `set_background_color` unchanged. -/
theorem set_background_color_of_parse_error (wOk : Nat → String → String → Bool)
    (st : RegState) (color : String) (e : PyExc)
    (h : parse_color color = .error e) :
    set_background_color wOk st color = .error e := by
  unfold set_background_color
  rw [h]

/-- A successful parse reduces `set_background_color` to the apply phase. -/
theorem set_background_color_of_parse_ok (wOk : Nat → String → String → Bool)
    (st : RegState) (color : String) (r g b : Int)
    (h : parse_color color = .ok (r, g, b)) :
    set_background_color wOk st color = apply_background_color wOk st color r g b := by
  unfold set_background_color
  rw [h]

/-- An out-of-range channel makes the apply phase raise `ValueError`. -/
theorem apply_background_color_range_fail (wOk : Nat → String → String → Bool)
    (st : RegState) (color : String) (r g b : Int)
    (hr : ¬(0 ≤ r ∧ r ≤ 255 ∧ 0 ≤ g ∧ g ≤ 255 ∧ 0 ≤ b ∧ b ≤ 255)) :
    apply_background_color wOk st color r g b
      = .error (.valueError "The background colors must all be in the range [0, 255]") := by
  unfold apply_background_color
  have hb : (!(decide (0 ≤ r ∧ r ≤ 255) && decide (0 ≤ g ∧ g ≤ 255)
      && decide (0 ≤ b ∧ b ≤ 255))) = true := by
    simp only [Bool.not_eq_true', Bool.and_eq_false_iff, decide_eq_false_iff_not]
    by_contra h
    push_neg at h
    obtain ⟨⟨h1, h2⟩, h3⟩ := h
    exact hr ⟨h1.1, h1.2, h2.1, h2.2, h3.1, h3.2⟩
  rw [hb]
  rfl

/-- C4: Color parsing round-trips with the canonical decimal form:
`"#0099FF"` and `"0 153 255"` both parse to the RGB triple (0, 153, 255),
and `set_background_color` writes the identical canonical registry value
`"0 153 255"` (with the same `SetSysColors` call) for both input forms. -/
theorem color_roundtrip_canonical :
    parse_color "#0099FF" = .ok (0, 153, 255) ∧
    parse_color "0 153 255" = .ok (0, 153, 255) ∧
    colorTarget 0 153 255 = "0 153 255" ∧
    set_background_color (fun _ _ _ => true) [] "#0099FF"
      = .ok (true,
          [((HKEY_CURRENT_USER, colorKey, "Background"), ("0 153 255", REG_SZ))],
          [.info "Setting the background color to #0099FF",
           .regWrite HKEY_CURRENT_USER colorKey "Background" REG_SZ "0 153 255",
           .sysColors 0 153 255]) ∧
    set_background_color (fun _ _ _ => true) [] "0 153 255"
      = .ok (true,
          [((HKEY_CURRENT_USER, colorKey, "Background"), ("0 153 255", REG_SZ))],
          [.info "Setting the background color to 0 153 255",
           .regWrite HKEY_CURRENT_USER colorKey "Background" REG_SZ "0 153 255",
           .sysColors 0 153 255]) := by
  refine ⟨by decide, by decide, by decide, by decide, by decide⟩

/-- C10: For every directive other than `windows`, `handle` raises
`ValueError` instead of returning a boolean. -/
theorem handle_rejects_other_directives (env : Env) (st : RegState)
    (directive : String) (data : PyVal) (h : directive ≠ "windows") :
    handle env st directive data
      = .error (.valueError
          "The Windows plugin cannot run. Check the debug logs for more information.") := by
  unfold handle can_handle
  simp [h]

/-- Witness for `handle_rejects_other_directives` at the `link` directive. -/
theorem handle_rejects_other_directives_witness :
    handle sampleEnv [] "link" (.dict [])
      = .error (.valueError
          "The Windows plugin cannot run. Check the debug logs for more information.") :=
  handle_rejects_other_directives sampleEnv [] "link" (.dict []) (by decide)

/-- C5 counterexample: The spec `"# 1 2 3"` starts with `#`, has
length 7, and none of its three channel slices is two hex digits — yet
`set_background_color` accepts it (CPython `int(·, 16)` strips whitespace),
performs the registry write and the live color call, and returns `True`,
contradicting the claim that every such spec fails with `ValueError`. -/
theorem set_background_color_accepts_padded_hex :
    (("# 1 2 3").data.length = 7 ∧ ("# 1 2 3").data.head? = some '#') ∧
    twoHexDigits ((("# 1 2 3").data.drop 1).take 2) = false ∧
    twoHexDigits ((("# 1 2 3").data.drop 3).take 2) = false ∧
    twoHexDigits ((("# 1 2 3").data.drop 5).take 2) = false ∧
    set_background_color (fun _ _ _ => true) [] "# 1 2 3"
      = .ok (true,
          [((HKEY_CURRENT_USER, colorKey, "Background"), ("1 2 3", REG_SZ))],
          [.info "Setting the background color to # 1 2 3",
           .regWrite HKEY_CURRENT_USER colorKey "Background" REG_SZ "1 2 3",
           .sysColors 1 2 3]) := by
  refine ⟨by decide, by decide, by decide, by decide, by decide⟩

/-- C5 amended: the function `set_background_color` raises `ValueError` (returning
no effect trace, hence performing no registry write and no live color call)
for every spec that is malformed under the parse the code actually performs:
a `#` spec whose length is not 7 or one of whose three 2-character channel
slices is rejected by `int(·, 16)` (which accepts surrounding whitespace
and a sign, not only bare hex digits); a non-`#` spec whose
whitespace-split tokens are not exactly three strings accepted by
`int(·)`; and any spec whose parsed channels leave the range [0, 255]. -/
theorem set_background_color_rejects_malformed
    (wOk : Nat → String → String → Bool) (st : RegState) (color : String) :
    (color.data.head? = some '#' →
      (color.data.length ≠ 7 ∨
       pyIntParse 16 ((color.data.drop 1).take 2) = none ∨
       pyIntParse 16 ((color.data.drop 3).take 2) = none ∨
       pyIntParse 16 ((color.data.drop 5).take 2) = none) →
      throwsValueError (set_background_color wOk st color) = true) ∧
    (color.data.head? ≠ some '#' →
      (∀ r g b, (pySplit color.data).mapM (pyIntParse 10) ≠ some [r, g, b]) →
      throwsValueError (set_background_color wOk st color) = true) ∧
    (∀ r g b, parse_color color = .ok (r, g, b) →
      ¬(0 ≤ r ∧ r ≤ 255 ∧ 0 ≤ g ∧ g ≤ 255 ∧ 0 ≤ b ∧ b ≤ 255) →
      throwsValueError (set_background_color wOk st color) = true) := by
  refine ⟨?_, ?_, ?_⟩
  · intro hhash hbad
    have herr : parse_color color
        = .error (.valueError "did not parse as a hex RGB value") := by
      unfold parse_color
      rw [if_pos hhash]
      rcases hbad with h7 | h1 | h2 | h3
      · rw [if_pos h7]
      · by_cases h7 : color.data.length = 7
        · rw [if_neg (not_not_intro h7), h1]
        · rw [if_pos h7]
      · by_cases h7 : color.data.length = 7
        · rw [if_neg (not_not_intro h7), h2]
          all_goals cases hx1 : pyIntParse 16 ((color.data.drop 1).take 2) <;>
            cases hx3 : pyIntParse 16 ((color.data.drop 5).take 2) <;> rfl
        · rw [if_pos h7]
      · by_cases h7 : color.data.length = 7
        · rw [if_neg (not_not_intro h7), h3]
          all_goals cases hx1 : pyIntParse 16 ((color.data.drop 1).take 2) <;>
            cases hx2 : pyIntParse 16 ((color.data.drop 3).take 2) <;> rfl
        · rw [if_pos h7]
    rw [set_background_color_of_parse_error wOk st color _ herr]
    rfl
  · intro hhash hbad
    have herr : parse_color color
        = .error (.valueError "did not parse as 3 decimal RGB values") := by
      unfold parse_color
      rw [if_neg hhash]
      cases hm : (pySplit color.data).mapM (pyIntParse 10) with
      | none => rfl
      | some l =>
          rcases l with _ | ⟨a, _ | ⟨b, _ | ⟨c, _ | ⟨d, tl⟩⟩⟩⟩
          · rfl
          · rfl
          · rfl
          · exact absurd hm (hbad a b c)
          · rfl
    rw [set_background_color_of_parse_error wOk st color _ herr]
    rfl
  · intro r g b hp hrange
    rw [set_background_color_of_parse_ok wOk st color r g b hp,
        apply_background_color_range_fail wOk st color r g b hrange]
    rfl

/-- Witness for `set_background_color_rejects_malformed`: a non-hex `#`
spec, a two-token decimal spec, and an out-of-range channel all raise
`ValueError`. -/
theorem set_background_color_rejects_malformed_witness :
    throwsValueError (set_background_color (fun _ _ _ => true) [] "#qqqqqq") = true ∧
    throwsValueError (set_background_color (fun _ _ _ => true) [] "1 2") = true ∧
    throwsValueError (set_background_color (fun _ _ _ => true) [] "256 0 0") = true :=
  ⟨(set_background_color_rejects_malformed (fun _ _ _ => true) [] "#qqqqqq").1
      (by decide) (by decide),
   (set_background_color_rejects_malformed (fun _ _ _ => true) [] "1 2").2.1
      (by decide)
      (by
        intro r g b h
        rw [show (pySplit ("1 2").data).mapM (pyIntParse 10)
            = some [(1 : Int), 2] from rfl] at h
        simp at h),
   (set_background_color_rejects_malformed (fun _ _ _ => true) [] "256 0 0").2.2
      256 0 0 (by decide) (by decide)⟩

/-- With in-range channels the apply phase reduces to the idempotence
check followed by the write path. -/
theorem apply_background_color_in_range (wOk : Nat → String → String → Bool)
    (st : RegState) (color : String) (r g b : Int)
    (hr : 0 ≤ r ∧ r ≤ 255) (hg : 0 ≤ g ∧ g ≤ 255) (hb : 0 ≤ b ∧ b ≤ 255) :
    apply_background_color wOk st color r g b
      = (if get_registry_value st HKEY_CURRENT_USER colorKey "Background"
            = some (colorTarget r g b, REG_SZ) then
          .ok (true, st,
               [.lowinfo ("The background color is already set to " ++ color)])
        else
          match set_registry_value wOk st HKEY_CURRENT_USER colorKey
              "Background" REG_SZ (colorTarget r g b) with
          | .ok (st1, effs) =>
              .ok (true, st1,
                   .info ("Setting the background color to " ++ color)
                     :: effs ++ [.sysColors r g b])
          | .error e => .error e) := by
  unfold apply_background_color
  have hbool : (!(decide (0 ≤ r ∧ r ≤ 255) && decide (0 ≤ g ∧ g ≤ 255)
      && decide (0 ≤ b ∧ b ≤ 255))) = false := by
    simp [hr.1, hr.2, hg.1, hg.2, hb.1, hb.2]
  rw [hbool]
  rfl

/-- Looking up a location immediately after storing to it returns the
stored value. -/
theorem regLookup_regStore (st : RegState) (hive : Nat) (key sub : String)
    (value : String) (dataType : Nat) :
    get_registry_value (regStore st hive key sub value dataType) hive key sub
      = some (value, dataType) := by
  simp [get_registry_value, regStore, regLookup]

/-- A registry write succeeds when the oracle allows that location. -/
theorem set_registry_value_ok (writeOk : Nat → String → String → Bool)
    (st : RegState) (hive : Nat) (key sub : String) (dataType : Nat)
    (value : String) (hw : writeOk hive key sub = true) :
    set_registry_value writeOk st hive key sub dataType value
      = .ok (regStore st hive key sub value dataType,
             [.regWrite hive key sub dataType value]) := by
  unfold set_registry_value
  rw [hw]
  rfl

/-- C6: If the registry already holds the canonical decimal triplet
with the target data type at (HKEY_CURRENT_USER, `Control Panel\Colors`,
`Background`), `set_background_color` returns success touching nothing
(first conjunct: the state is unchanged and the only trace entry is the
already-set log line); otherwise the first call performs exactly one
registry write plus one live color call, and a second call with the same
spec is a no-op (second conjunct). -/
theorem set_background_color_idempotent
    (wOk : Nat → String → String → Bool) (st : RegState) (color : String)
    (r g b : Int)
    (hp : parse_color color = .ok (r, g, b))
    (hr : 0 ≤ r ∧ r ≤ 255) (hg : 0 ≤ g ∧ g ≤ 255) (hb : 0 ≤ b ∧ b ≤ 255)
    (hw : wOk HKEY_CURRENT_USER colorKey "Background" = true) :
    (get_registry_value st HKEY_CURRENT_USER colorKey "Background"
        = some (colorTarget r g b, REG_SZ) →
      set_background_color wOk st color
        = .ok (true, st,
            [.lowinfo ("The background color is already set to " ++ color)])) ∧
    (get_registry_value st HKEY_CURRENT_USER colorKey "Background"
        ≠ some (colorTarget r g b, REG_SZ) →
      set_background_color wOk st color
        = .ok (true,
            regStore st HKEY_CURRENT_USER colorKey "Background"
              (colorTarget r g b) REG_SZ,
            [.info ("Setting the background color to " ++ color),
             .regWrite HKEY_CURRENT_USER colorKey "Background" REG_SZ
               (colorTarget r g b),
             .sysColors r g b]) ∧
      set_background_color wOk
          (regStore st HKEY_CURRENT_USER colorKey "Background"
            (colorTarget r g b) REG_SZ) color
        = .ok (true,
            regStore st HKEY_CURRENT_USER colorKey "Background"
              (colorTarget r g b) REG_SZ,
            [.lowinfo ("The background color is already set to " ++ color)])) := by
  constructor
  · intro hcur
    rw [set_background_color_of_parse_ok wOk st color r g b hp,
        apply_background_color_in_range wOk st color r g b hr hg hb,
        if_pos hcur]
  · intro hcur
    refine ⟨?_, ?_⟩
    · rw [set_background_color_of_parse_ok wOk st color r g b hp,
          apply_background_color_in_range wOk st color r g b hr hg hb,
          if_neg hcur,
          set_registry_value_ok wOk st _ _ _ _ _ hw]
      rfl
    · rw [set_background_color_of_parse_ok wOk _ color r g b hp,
          apply_background_color_in_range wOk _ color r g b hr hg hb,
          if_pos (regLookup_regStore st HKEY_CURRENT_USER colorKey "Background"
            (colorTarget r g b) REG_SZ)]

/-- Witness for `set_background_color_idempotent`: on an empty registry,
setting `#0099FF` writes once and calls `SetSysColors` once; the second
call only logs. -/
theorem set_background_color_idempotent_witness :
    set_background_color (fun _ _ _ => true) [] "#0099FF"
      = .ok (true,
          regStore [] HKEY_CURRENT_USER colorKey "Background"
            (colorTarget 0 153 255) REG_SZ,
          [.info "Setting the background color to #0099FF",
           .regWrite HKEY_CURRENT_USER colorKey "Background" REG_SZ
             (colorTarget 0 153 255),
           .sysColors 0 153 255]) ∧
    set_background_color (fun _ _ _ => true)
        (regStore [] HKEY_CURRENT_USER colorKey "Background"
          (colorTarget 0 153 255) REG_SZ) "#0099FF"
      = .ok (true,
          regStore [] HKEY_CURRENT_USER colorKey "Background"
            (colorTarget 0 153 255) REG_SZ,
          [.lowinfo "The background color is already set to #0099FF"]) :=
  (set_background_color_idempotent (fun _ _ _ => true) [] "#0099FF" 0 153 255
      (by decide) (by decide) (by decide) (by decide) rfl).2 (by decide)

/-- With no entries, the validation loop has nothing to check. -/
theorem validateEntries_nil_entries (key : String) (l : List (String × Schema)) :
    validateEntries key [] l = .ok () := by
  induction l with
  | nil => rw [validateEntries]
  | cons hd rest ih =>
      obtain ⟨k, sch⟩ := hd
      rw [validateEntries]
      simpa [dictGet] using ih

/-- A non-dict value fails validation immediately. -/
theorem validate_data_notDict (key : String) (v : PyVal)
    (l : List (String × Schema)) (hv : ∀ es, v ≠ .dict es) :
    validate_data key v l = .error (.notDict key) := by
  cases v with
  | dict es => exact absurd rfl (hv es)
  | str s => rw [validate_data]; simp
  | int n => rw [validate_data]; simp
  | bool b => rw [validate_data]; simp
  | pyNone => rw [validate_data]; simp

/-- A data key absent from the schema trips the unexpected-keys check. -/
theorem validate_data_unexpected (key : String)
    (entries : List (String × PyVal)) (expected : List (String × Schema))
    (k : String) (hk : k ∈ keysOf entries)
    (hnk : k ∉ expected.map Prod.fst) :
    validate_data key (.dict entries) expected
      = .error (.unexpectedKeys key) := by
  rw [validate_data]
  have hany : entries.any
      (fun kv => !((expected.map Prod.fst).contains kv.1)) = true := by
    rw [List.any_eq_true]
    obtain ⟨p, hmem, hp⟩ : ∃ p ∈ entries, p.1 = k := by
      simpa [keysOf, List.mem_map] using hk
    refine ⟨p, hmem, ?_⟩
    simp only [Bool.not_eq_true', ← Bool.not_eq_true]
    intro hc
    exact hnk (hp ▸ List.mem_of_elem_eq_true hc)
  rw [if_pos hany]

/-- If some schema key with a primitive tag is present in the data with a
value of the wrong type, the validation loop cannot succeed. -/
theorem validateEntries_fails_prim (key : String)
    (entries : List (String × PyVal)) (l : List (String × Schema))
    (k : String) (t : PyType) (v : PyVal)
    (hnd : (l.map Prod.fst).Nodup) (hmem : (k, Schema.prim t) ∈ l)
    (hget : dictGet entries k = some v) (hbad : isinst v t = false) :
    validateEntries key entries l ≠ .ok () := by
  induction l with
  | nil => cases hmem
  | cons hd rest ih =>
      obtain ⟨k', sch'⟩ := hd
      rw [validateEntries]
      rcases List.mem_cons.mp hmem with heq | hrest
      · injection heq with hk hsch
        subst hk
        subst hsch
        rw [hget]
        simp [hbad]
      · have hnd' := (List.nodup_cons.mp hnd).2
        split
        · exact ih hnd' hrest
        · split
          · split
            · exact ih hnd' hrest
            · simp
          · split
            · exact ih hnd' hrest
            · simp

/-- If some schema key with a nested schema is present in the data with a
non-dict value, the validation loop cannot succeed. -/
theorem validateEntries_fails_nested (key : String)
    (entries : List (String × PyVal)) (l : List (String × Schema))
    (k : String) (e2 : List (String × Schema)) (v : PyVal)
    (hnd : (l.map Prod.fst).Nodup) (hmem : (k, Schema.nested e2) ∈ l)
    (hget : dictGet entries k = some v) (hbad : ∀ es, v ≠ .dict es) :
    validateEntries key entries l ≠ .ok () := by
  induction l with
  | nil => cases hmem
  | cons hd rest ih =>
      obtain ⟨k', sch'⟩ := hd
      rw [validateEntries]
      rcases List.mem_cons.mp hmem with heq | hrest
      · injection heq with hk hsch
        subst hk
        subst hsch
        rw [hget]
        simp [validate_data_notDict _ v e2 hbad]
      · have hnd' := (List.nodup_cons.mp hnd).2
        split
        · exact ih hnd' hrest
        · split
          · split
            · exact ih hnd' hrest
            · simp
          · split
            · exact ih hnd' hrest
            · simp

/-- C7: Schema validation is a pure function of its input (it is a Lean
function, so determinism is built in); the empty tree validates against
every schema; a data key absent from the schema at its level fails as
"unexpected keys"; and a key present in both whose value either mismatches
the declared primitive type or is a non-mapping where the schema nests
cannot validate. -/
theorem validate_data_spec :
    (∀ key expected, validate_data key (.dict []) expected = .ok ()) ∧
    (∀ key entries expected k, k ∈ keysOf entries →
      k ∉ expected.map Prod.fst →
      validate_data key (.dict entries) expected
        = .error (.unexpectedKeys key)) ∧
    (∀ key entries expected k t v, (expected.map Prod.fst).Nodup →
      (k, Schema.prim t) ∈ expected → dictGet entries k = some v →
      isinst v t = false →
      validate_data key (.dict entries) expected ≠ .ok ()) ∧
    (∀ key entries expected k e2 v, (expected.map Prod.fst).Nodup →
      (k, Schema.nested e2) ∈ expected → dictGet entries k = some v →
      (∀ es, v ≠ .dict es) →
      validate_data key (.dict entries) expected ≠ .ok ()) := by
  refine ⟨?_, fun key entries expected k hk hnk =>
      validate_data_unexpected key entries expected k hk hnk, ?_, ?_⟩
  · intro key expected
    rw [validate_data]
    simpa using validateEntries_nil_entries key expected
  · intro key entries expected k t v hnd hmem hget hbad
    rw [validate_data]
    cases hany : entries.any
        (fun kv => !((expected.map Prod.fst).contains kv.1)) with
    | true => simp
    | false =>
        simpa using validateEntries_fails_prim key entries expected k t v
          hnd hmem hget hbad
  · intro key entries expected k e2 v hnd hmem hget hbad
    rw [validate_data]
    cases hany : entries.any
        (fun kv => !((expected.map Prod.fst).contains kv.1)) with
    | true => simp
    | false =>
        simpa using validateEntries_fails_nested key entries expected k e2 v
          hnd hmem hget hbad

/-- Witness for `validate_data_spec`: the empty config validates against
`VALID_TYPES`; a bogus top-level key is rejected; an integer `fonts.path`
is rejected at the nested level; a string under `fonts` (where a mapping is
required) is rejected. -/
theorem validate_data_spec_witness :
    validate_data "windows" (.dict []) VALID_TYPES = .ok () ∧
    validate_data "windows" (.dict [("bogus", .str "x")]) VALID_TYPES
      = .error (.unexpectedKeys "windows") ∧
    validate_data "windows.fonts" (.dict [("path", .int 5)])
      [("path", Schema.prim .str)] ≠ .ok () ∧
    validate_data "windows" (.dict [("fonts", .str "x")]) VALID_TYPES ≠ .ok () :=
  ⟨validate_data_spec.1 "windows" VALID_TYPES,
   validate_data_spec.2.1 "windows" [("bogus", .str "x")] VALID_TYPES "bogus"
     (by simp [keysOf]) (by simp [VALID_TYPES]),
   validate_data_spec.2.2.1 "windows.fonts" [("path", .int 5)]
     [("path", Schema.prim .str)] "path" .str (.int 5)
     (by simp) (by simp) (by simp [dictGet]) (by simp [isinst]),
   validate_data_spec.2.2.2 "windows" [("fonts", .str "x")] VALID_TYPES
     "fonts" [("path", Schema.prim .str)] (.str "x")
     (by simp [VALID_TYPES]) (by simp [VALID_TYPES]) (by simp [dictGet])
     (by intro es h; cases h)⟩

/-- C3: Once the directive, platform and schema gates pass, `handle`
runs all three task handlers in the fixed order personalization,
registry-import, fonts; each contributes an independent boolean and its own
effect trace, and the overall result is the conjunction of the three
booleans over the concatenated trace — a `False` from any handler does not
prevent the others from contributing (the conclusion holds for every
combination of `b1`, `b2`, `b3`). -/
theorem handle_runs_all_and_aggregates
    (env : Env) (st : RegState) (data : PyVal)
    (b1 b2 b3 : Bool) (st1 st2 : RegState) (e1 e2 e3 : List Effect)
    (hwin : env.isWin32 = true) (hreg : env.winregAvailable = true)
    (hexe : env.regExeIsFile = true)
    (hval : validate_data "windows" data VALID_TYPES = .ok ())
    (h1 : handle_personalization env st data = .ok (b1, st1, e1))
    (h2 : handle_registry_imports env data = .ok (b2, e2))
    (h3 : handle_fonts env st1 data = .ok (b3, st2, e3)) :
    handle env st "windows" data = .ok (b1 && b2 && b3, st2, e1 ++ e2 ++ e3) := by
  unfold handle
  simp only [can_handle, hwin, hreg, hexe, hval, h1, h2, h3]
  simp

/-- Witness for `handle_runs_all_and_aggregates`: the empty config passes
every gate, each handler is a successful no-op, and the aggregate is
`True` over an empty trace. -/
theorem handle_runs_all_and_aggregates_witness :
    handle sampleEnv [] "windows" (.dict []) = .ok (true, [], []) :=
  handle_runs_all_and_aggregates sampleEnv [] (.dict [])
    true true true [] [] [] [] []
    rfl rfl rfl
    (by rw [validate_data]; simpa using validateEntries_nil_entries "windows" VALID_TYPES)
    rfl rfl rfl

/-- The success flag of the import loop is the conjunction of the per-file
exit-code checks. -/
theorem importLoop_fst (env : Env) (l : List String) :
    (importLoop env l).1 = l.all (fun p => env.exitCode p == 0) := by
  induction l with
  | nil => rfl
  | cons p rest ih =>
      by_cases h : env.exitCode p = 0 <;>
        simp [importLoop, import_registry_file, h, ih]

/-- Each path is passed to `reg.exe import` exactly as often as it was
discovered, independent of any exit codes. -/
theorem importLoop_count (env : Env) (l : List String) (p : String) :
    ((importLoop env l).2.count (.runRegImport p)) = l.count p := by
  induction l with
  | nil => rfl
  | cons q rest ih =>
      by_cases h : env.exitCode q = 0 <;>
        simp [importLoop, import_registry_file, h, ih, List.count_cons,
          List.count_append]

/-- C8: With the registry import directory configured, the importer invokes the
external import facility exactly once per `.reg` file (never zero times —
no short-circuit — and never twice), and its boolean result is the
conjunction of the per-file exit-code-zero checks, which is vacuously
`True` for an empty discovery list. -/
theorem handle_registry_imports_spec (env : Env) (data : PyVal) (dir : String)
    (hdir : pyGet2 data "registry" "import" = .ok (some (.str dir)))
    (hnd : env.regFiles.Nodup) :
    ∃ effs, handle_registry_imports env data
        = .ok (env.regFiles.all (fun p => env.exitCode p == 0), effs) ∧
      (∀ p, p ∈ env.regFiles → effs.count (.runRegImport p) = 1) ∧
      (∀ p, p ∉ env.regFiles → effs.count (.runRegImport p) = 0) ∧
      (env.regFiles = [] →
        env.regFiles.all (fun p => env.exitCode p == 0) = true) := by
  refine ⟨(importLoop env env.regFiles).2, ?_, ?_, ?_, ?_⟩
  · unfold handle_registry_imports
    rw [hdir, ← importLoop_fst]
  · intro p hp
    rw [importLoop_count]
    exact List.count_eq_one_of_mem hnd hp
  · intro p hp
    rw [importLoop_count]
    exact List.count_eq_zero_of_not_mem hp
  · intro h
    rw [h]
    rfl

/-- Witness for `handle_registry_imports_spec` on the sample environment
(two discovered files, both exiting zero). -/
theorem handle_registry_imports_spec_witness :
    ∃ effs, handle_registry_imports sampleEnv
        (.dict [("registry", .dict [("import", .str "regs")])])
        = .ok (sampleEnv.regFiles.all (fun p => sampleEnv.exitCode p == 0),
               effs) ∧
      (∀ p, p ∈ sampleEnv.regFiles → effs.count (.runRegImport p) = 1) ∧
      (∀ p, p ∉ sampleEnv.regFiles → effs.count (.runRegImport p) = 0) ∧
      (sampleEnv.regFiles = [] →
        sampleEnv.regFiles.all (fun p => sampleEnv.exitCode p == 0) = true) :=
  handle_registry_imports_spec sampleEnv
    (.dict [("registry", .dict [("import", .str "regs")])]) "regs"
    rfl (by decide)

/-- A name is in the already-installed class iff it occurs among both the
source and the destination font names. -/
theorem mem_insertSorted (a b : String) (l : List String) :
    a ∈ insertSorted b l ↔ a = b ∨ a ∈ l := by
  induction l with
  | nil => simp [insertSorted]
  | cons c rest ih =>
      by_cases h : strLe b c = true <;> simp [insertSorted, h, ih] <;> tauto

/-- Sorting preserves membership. -/
theorem mem_sortStrings (a : String) (l : List String) :
    a ∈ sortStrings l ↔ a ∈ l := by
  induction l with
  | nil => simp [sortStrings]
  | cons c rest ih => simp [sortStrings, mem_insertSorted, ih]

/-- A name is in the already-installed class iff it occurs among both the
source and the destination font names. -/
theorem mem_alreadyNames (env : Env) (n : String) :
    n ∈ alreadyNames env ↔ n ∈ env.srcFontNames ∧ n ∈ env.dstFontNames := by
  simp [alreadyNames, mem_sortStrings, List.mem_filter,
    srcSet, dstSet, List.mem_dedup, List.elem_iff]

/-- A name is in the to-copy class iff it occurs among the source names but
not the destination names. -/
theorem mem_toCopyNames (env : Env) (n : String) :
    n ∈ toCopyNames env ↔ n ∈ env.srcFontNames ∧ n ∉ env.dstFontNames := by
  simp [toCopyNames, mem_sortStrings, List.mem_filter,
    srcSet, dstSet, List.mem_dedup, List.elem_iff]

/-- The copy loop succeeds iff every copy succeeded. -/
theorem copyLoop_fst (ok : String → Bool) (l : List String) :
    (copyLoop ok l).1 = l.all ok := by
  induction l with
  | nil => rfl
  | cons q rest ih =>
      by_cases h : ok q = true <;> simp [copyLoop, h, ih]

/-- The fonts recorded as copied are exactly those whose copy succeeded,
in order. -/
theorem copyLoop_copied (ok : String → Bool) (l : List String) :
    (copyLoop ok l).2.1 = l.filter (fun n => ok n) := by
  induction l with
  | nil => rfl
  | cons q rest ih =>
      by_cases h : ok q = true <;> simp [copyLoop, h, ih]

/-- The copy loop emits exactly one effect per name: the copy itself on
success, an error log line on failure. -/
theorem copyLoop_effs (ok : String → Bool) (l : List String) :
    (copyLoop ok l).2.2
      = l.map (fun n => if ok n then Effect.copyFile n
          else .logError ("Unable to copy " ++ n ++ " to Windows font directory")) := by
  induction l with
  | nil => rfl
  | cons q rest ih =>
      by_cases h : ok q = true <;> simp [copyLoop, h, ih]

/-- When every registry write succeeds, the registration loop reports
success, threads the stored state, and emits one write and one info line
per font. -/
theorem registerLoop_allOk (env : Env)
    (hw : ∀ a b c, env.writeOk a b c = true) (l : List String) :
    ∀ st, registerLoop env st l = .ok (true, regStoreAll env st l, regEffsAll env l) := by
  induction l with
  | nil => intro st; rfl
  | cons n rest ih =>
      intro st
      rw [registerLoop, set_registry_value_ok _ _ _ _ _ _ _ (hw _ _ _)]
      simp only [ih]
      rfl

/-- The per-font value name determines the font name. -/
theorem fontValueName_inj (m n : String)
    (h : fontValueName m = fontValueName n) : m = n := by
  have hd : m.data ++ (" (dotbot-windows)" : String).data
      = n.data ++ (" (dotbot-windows)" : String).data := by
    have := congrArg String.data h
    simpa [fontValueName] using this
  exact String.ext (List.append_cancel_right hd)

/-- Every registered name produces its registry write in the trace. -/
theorem regEffsAll_mem (env : Env) (l : List String) (n : String)
    (h : n ∈ l) :
    Effect.regWrite HKEY_CURRENT_USER fontsRegKey (fontValueName n) REG_SZ
      (env.dstPath ++ "/" ++ n) ∈ regEffsAll env l := by
  induction l with
  | nil => cases h
  | cons q rest ih =>
      rcases List.mem_cons.mp h with rfl | hrest
      · simp [regEffsAll]
      · simp [regEffsAll, ih hrest]

/-- Every registry write in the registration trace belongs to some
registered name. -/
theorem regEffsAll_mem_inv (env : Env) (l : List String)
    (hh : Nat) (k s : String) (dt : Nat) (v : String)
    (h : Effect.regWrite hh k s dt v ∈ regEffsAll env l) :
    ∃ n ∈ l, s = fontValueName n := by
  induction l with
  | nil => cases h
  | cons q rest ih =>
      rcases List.mem_cons.mp h with heq | hmem
      · injection heq with h1 h2 h3 h4 h5
        exact ⟨q, List.mem_cons_self q rest, h3⟩
      · rcases List.mem_cons.mp hmem with heq | hmem2
        · cases heq
        · obtain ⟨n, hn, hs⟩ := ih hmem2
          exact ⟨n, List.mem_cons_of_mem q hn, hs⟩

/-- The registration trace contains no file-copy effects. -/
theorem regEffsAll_no_copyFile (env : Env) (l : List String) (n : String) :
    Effect.copyFile n ∉ regEffsAll env l := by
  induction l with
  | nil => simp [regEffsAll]
  | cons q rest ih => simp [regEffsAll, ih]

/-- Under the version/source/destination gates, with every registry write
succeeding, `handle_fonts` reduces to the classification of the source
names: the copied set is the to-copy list filtered by copy success, the
result flag is the conjunction of the copy outcomes, and the trace is the
concatenation of the mkdir step, the already-installed log lines, the
per-font copy outcomes, and the registration writes. -/
theorem handle_fonts_allWritesOk (env : Env) (st : RegState) (data : PyVal)
    (fontPath : String)
    (hpath : pyGet2 data "fonts" "path" = .ok (some (.str fontPath)))
    (hgate : (decide (env.fontsVersion > 10)
      || (decide (env.fontsVersion = 10) && decide (env.fontsBuild ≥ 17704))) = true)
    (hsrc : env.srcIsDir = true) (hdst : env.dstIsFile = false)
    (hw : ∀ a b c, env.writeOk a b c = true) :
    handle_fonts env st data
      = .ok ((toCopyNames env).all env.copyOk,
          regStoreAll env st ((toCopyNames env).filter (fun n => env.copyOk n)),
          (if env.dstExists then [] else [.mkdirDst])
            ++ (alreadyNames env).map
                 (fun n => Effect.lowinfo ("Font " ++ n ++ " is already installed"))
            ++ (toCopyNames env).map
                 (fun n => if env.copyOk n then Effect.copyFile n
                   else .logError ("Unable to copy " ++ n ++ " to Windows font directory"))
            ++ regEffsAll env ((toCopyNames env).filter (fun n => env.copyOk n))) := by
  unfold handle_fonts
  rw [hpath]
  simp only [hgate, hsrc, hdst, Bool.not_true, Bool.not_false,
    registerLoop_allOk env hw, copyLoop_fst, copyLoop_copied, copyLoop_effs]
  simp

/-- C9: Under the gates, with all copies and registry writes
succeeding, font synchronization partitions the source filenames against
the destination filenames: every name in the intersection is logged as
already installed and is neither copied nor registered; a name is copied
iff it lies in source-minus-destination; and every such name is also
registered with its installed path. -/
theorem handle_fonts_partition (env : Env) (st : RegState) (data : PyVal)
    (fontPath : String)
    (hpath : pyGet2 data "fonts" "path" = .ok (some (.str fontPath)))
    (hgate : (decide (env.fontsVersion > 10)
      || (decide (env.fontsVersion = 10) && decide (env.fontsBuild ≥ 17704))) = true)
    (hsrc : env.srcIsDir = true) (hdst : env.dstIsFile = false)
    (hw : ∀ a b c, env.writeOk a b c = true)
    (hcopy : ∀ n, env.copyOk n = true) :
    ∃ st1 effs, handle_fonts env st data = .ok (true, st1, effs) ∧
      (∀ n, n ∈ env.srcFontNames → n ∈ env.dstFontNames →
        Effect.lowinfo ("Font " ++ n ++ " is already installed") ∈ effs ∧
        Effect.copyFile n ∉ effs ∧
        (∀ dt v, Effect.regWrite HKEY_CURRENT_USER fontsRegKey
          (fontValueName n) dt v ∉ effs)) ∧
      (∀ n, Effect.copyFile n ∈ effs ↔
        (n ∈ env.srcFontNames ∧ n ∉ env.dstFontNames)) ∧
      (∀ n, n ∈ env.srcFontNames → n ∉ env.dstFontNames →
        Effect.regWrite HKEY_CURRENT_USER fontsRegKey (fontValueName n) REG_SZ
          (env.dstPath ++ "/" ++ n) ∈ effs) := by
  have hall : (toCopyNames env).all env.copyOk = true := by
    rw [List.all_eq_true]
    exact fun n _ => hcopy n
  refine ⟨regStoreAll env st ((toCopyNames env).filter (fun n => env.copyOk n)),
    (if env.dstExists then [] else [Effect.mkdirDst])
      ++ (alreadyNames env).map
           (fun n => Effect.lowinfo ("Font " ++ n ++ " is already installed"))
      ++ (toCopyNames env).map
           (fun n => if env.copyOk n then Effect.copyFile n
             else .logError ("Unable to copy " ++ n ++ " to Windows font directory"))
      ++ regEffsAll env ((toCopyNames env).filter (fun n => env.copyOk n)),
    ?_, ?_, ?_, ?_⟩
  · rw [handle_fonts_allWritesOk env st data fontPath hpath hgate hsrc hdst hw,
      hall]
  · intro n hs hd
    refine ⟨?_, ?_, ?_⟩
    · simp only [List.mem_append, List.mem_map]
      exact Or.inl (Or.inl (Or.inr ⟨n, (mem_alreadyNames env n).mpr ⟨hs, hd⟩, rfl⟩))
    · intro hmem
      simp only [List.mem_append, List.mem_map] at hmem
      rcases hmem with ((hmk | ⟨m, _, hlow⟩) | ⟨m, hm, hcf⟩) | hreg
      · rcases hex : env.dstExists <;> simp [hex] at hmk
      · cases hlow
      · rw [hcopy m] at hcf
        simp only [if_true] at hcf
        injection hcf with hmn
        exact absurd hd ((mem_toCopyNames env n).mp (hmn ▸ hm)).2
      · exact regEffsAll_no_copyFile env _ n hreg
    · intro dt v hmem
      simp only [List.mem_append, List.mem_map] at hmem
      rcases hmem with ((hmk | ⟨m, _, hlow⟩) | ⟨m, hm, hcf⟩) | hreg
      · rcases hex : env.dstExists <;> simp [hex] at hmk
      · cases hlow
      · rw [hcopy m] at hcf
        simp only [if_true] at hcf
        cases hcf
      · obtain ⟨m, hm, hs'⟩ := regEffsAll_mem_inv env _ _ _ _ _ _ hreg
        have hmn : n = m := fontValueName_inj n m hs'
        have := (mem_toCopyNames env m).mp (List.mem_of_mem_filter hm)
        exact absurd hd (hmn ▸ this.2)
  · intro n
    constructor
    · intro hmem
      simp only [List.mem_append, List.mem_map] at hmem
      rcases hmem with ((hmk | ⟨m, _, hlow⟩) | ⟨m, hm, hcf⟩) | hreg
      · rcases hex : env.dstExists <;> simp [hex] at hmk
      · cases hlow
      · rw [hcopy m] at hcf
        simp only [if_true] at hcf
        injection hcf with hmn
        exact hmn ▸ (mem_toCopyNames env m).mp hm
      · exact absurd hreg (regEffsAll_no_copyFile env _ n)
    · intro ⟨hs, hd⟩
      simp only [List.mem_append, List.mem_map]
      refine Or.inl (Or.inr ⟨n, (mem_toCopyNames env n).mpr ⟨hs, hd⟩, ?_⟩)
      rw [hcopy n]
      simp
  · intro n hs hd
    simp only [List.mem_append]
    refine Or.inr (regEffsAll_mem env _ n ?_)
    rw [List.mem_filter]
    exact ⟨(mem_toCopyNames env n).mpr ⟨hs, hd⟩, hcopy n⟩

/-- Witness for `handle_fonts_partition`: source `{A.ttf, B.otf}` against
destination `{B.otf}` — exactly `A.ttf` is copied and registered, `B.otf`
is only logged. -/
theorem handle_fonts_partition_witness :
    ∃ st1 effs, handle_fonts sampleEnv [] sampleFontsData
        = .ok (true, st1, effs) ∧
      (∀ n, n ∈ sampleEnv.srcFontNames → n ∈ sampleEnv.dstFontNames →
        Effect.lowinfo ("Font " ++ n ++ " is already installed") ∈ effs ∧
        Effect.copyFile n ∉ effs ∧
        (∀ dt v, Effect.regWrite HKEY_CURRENT_USER fontsRegKey
          (fontValueName n) dt v ∉ effs)) ∧
      (∀ n, Effect.copyFile n ∈ effs ↔
        (n ∈ sampleEnv.srcFontNames ∧ n ∉ sampleEnv.dstFontNames)) ∧
      (∀ n, n ∈ sampleEnv.srcFontNames → n ∉ sampleEnv.dstFontNames →
        Effect.regWrite HKEY_CURRENT_USER fontsRegKey (fontValueName n) REG_SZ
          (sampleEnv.dstPath ++ "/" ++ n) ∈ effs) :=
  handle_fonts_partition sampleEnv [] sampleFontsData "~/fonts"
    rfl (by decide) rfl rfl (fun _ _ _ => rfl) (fun _ => rfl)

/-- C2: Under the gates, with every registry write succeeding, a copy
failure on one font is isolated: every source-minus-destination font whose
copy succeeds is both copied and registered, while each failing font is
logged with an error and forces the overall task result to `False`. -/
theorem handle_fonts_copy_failure_isolated (env : Env) (st : RegState)
    (data : PyVal) (fontPath : String)
    (hpath : pyGet2 data "fonts" "path" = .ok (some (.str fontPath)))
    (hgate : (decide (env.fontsVersion > 10)
      || (decide (env.fontsVersion = 10) && decide (env.fontsBuild ≥ 17704))) = true)
    (hsrc : env.srcIsDir = true) (hdst : env.dstIsFile = false)
    (hw : ∀ a b c, env.writeOk a b c = true) :
    ∃ b st1 effs, handle_fonts env st data = .ok (b, st1, effs) ∧
      (∀ n, n ∈ env.srcFontNames → n ∉ env.dstFontNames → env.copyOk n = true →
        Effect.copyFile n ∈ effs ∧
        Effect.regWrite HKEY_CURRENT_USER fontsRegKey (fontValueName n) REG_SZ
          (env.dstPath ++ "/" ++ n) ∈ effs) ∧
      (∀ n, n ∈ env.srcFontNames → n ∉ env.dstFontNames → env.copyOk n = false →
        Effect.logError ("Unable to copy " ++ n ++ " to Windows font directory")
            ∈ effs ∧
        b = false) := by
  refine ⟨(toCopyNames env).all env.copyOk,
    regStoreAll env st ((toCopyNames env).filter (fun n => env.copyOk n)),
    (if env.dstExists then [] else [Effect.mkdirDst])
      ++ (alreadyNames env).map
           (fun n => Effect.lowinfo ("Font " ++ n ++ " is already installed"))
      ++ (toCopyNames env).map
           (fun n => if env.copyOk n then Effect.copyFile n
             else .logError ("Unable to copy " ++ n ++ " to Windows font directory"))
      ++ regEffsAll env ((toCopyNames env).filter (fun n => env.copyOk n)),
    handle_fonts_allWritesOk env st data fontPath hpath hgate hsrc hdst hw,
    ?_, ?_⟩
  · intro n hs hd hok
    constructor
    · simp only [List.mem_append, List.mem_map]
      refine Or.inl (Or.inr ⟨n, (mem_toCopyNames env n).mpr ⟨hs, hd⟩, ?_⟩)
      rw [hok]
      simp
    · simp only [List.mem_append]
      refine Or.inr (regEffsAll_mem env _ n ?_)
      rw [List.mem_filter]
      exact ⟨(mem_toCopyNames env n).mpr ⟨hs, hd⟩, hok⟩
  · intro n hs hd hfail
    constructor
    · simp only [List.mem_append, List.mem_map]
      refine Or.inl (Or.inr ⟨n, (mem_toCopyNames env n).mpr ⟨hs, hd⟩, ?_⟩)
      rw [hfail]
      simp
    · have : ¬ ((toCopyNames env).all env.copyOk = true) := by
        intro hall
        rw [List.all_eq_true] at hall
        rw [hall n ((mem_toCopyNames env n).mpr ⟨hs, hd⟩)] at hfail
        cases hfail
      exact Bool.eq_false_iff.mpr (fun h => this h)

/-- Witness for `handle_fonts_copy_failure_isolated`: `A.ttf` fails to
copy, `B.otf` is still copied and registered, and the task reports
failure. -/
theorem handle_fonts_copy_failure_isolated_witness :
    ∃ b st1 effs, handle_fonts failEnv [] sampleFontsData = .ok (b, st1, effs) ∧
      (∀ n, n ∈ failEnv.srcFontNames → n ∉ failEnv.dstFontNames →
        failEnv.copyOk n = true →
        Effect.copyFile n ∈ effs ∧
        Effect.regWrite HKEY_CURRENT_USER fontsRegKey (fontValueName n) REG_SZ
          (failEnv.dstPath ++ "/" ++ n) ∈ effs) ∧
      (∀ n, n ∈ failEnv.srcFontNames → n ∉ failEnv.dstFontNames →
        failEnv.copyOk n = false →
        Effect.logError ("Unable to copy " ++ n ++ " to Windows font directory")
            ∈ effs ∧
        b = false) :=
  handle_fonts_copy_failure_isolated failEnv [] sampleFontsData "~/fonts"
    rfl (by decide) rfl rfl (fun _ _ _ => rfl)

/-- C1 code bug: The registration loop in `handle_fonts` guards
`set_registry_value` with `except ValueError`, but `winreg` raises
`OSError` on a failed write, so that handler never fires: when the
registry write for a successfully copied font fails, the `OSError`
propagates out of `handle_fonts` — no per-item log line, no `False`
return, and no processing of the remaining copied fonts — instead of the
documented log-mark-failed-and-continue behavior. -/
theorem handle_fonts_registry_oserror_propagates :
    handle_fonts oserrEnv [] sampleFontsData
      = .error (.osError "winreg access denied") := by
  decide

end DotbotWindows
